import Mathlib

/-!
Verification of the authorization core and role/user model of the
RAG_demo service (FastAPI + SQLAlchemy + Oso).

The persisted store (`database`/SQLAlchemy session) is embedded as an
explicit `DB` value holding the users and roles tables as lists in
insertion (rowid) order; route handlers become pure functions
`DB → args → DB × Except HTTPError α`, where the returned `DB` is the
committed state and `HTTPError` mirrors `fastapi.HTTPException`
(status code + detail string).
-/

namespace RagDemo

/-- A row of the `roles` table (`user_model.Role`): unique id, unique name. -/
structure Role where
  id : Nat
  name : String
deriving Repr, DecidableEq

/-- Modelled from the spec: the SQLAlchemy model `user_model.py` is not in
the source tree (only its importers are); per spec §3/§4.1 a `User` has a
unique id, unique email, a credential hash, an optional display name,
`is_active` and `is_admin` flags, and a many-to-many `roles` relationship,
embedded here as the list of held role ids in assignment order. -/
structure User where
  id : Nat
  email : String
  hashed_password : String
  full_name : Option String
  is_admin : Bool
  is_active : Bool
  roles : List Nat
deriving Repr, DecidableEq

/-- The persisted store: the `users` and `roles` tables in insertion order,
with the autoincrement counters for their primary keys. -/
structure DB where
  users : List User
  roles : List Role
  next_user_id : Nat
  next_role_id : Nat
deriving Repr, DecidableEq

/-- Embeds `fastapi.HTTPException`: status code and detail message. -/
structure HTTPError where
  status_code : Nat
  detail : String
deriving Repr, DecidableEq

/-- Embeds `db.query(User).filter(User.id == user_id).first()`. -/
def findUser (db : DB) (user_id : Nat) : Option User :=
  db.users.find? (fun u => u.id == user_id)

/-- Embeds `db.query(Role).filter(Role.id == role_id).first()`. -/
def findRole (db : DB) (role_id : Nat) : Option Role :=
  db.roles.find? (fun r => r.id == role_id)

/-- Replace the row of user `user_id` by `f` applied to it (the ORM mutates
the mapped object in place; rows are keyed by id). -/
def updateUser (db : DB) (user_id : Nat) (f : User → User) : DB :=
  { db with users := db.users.map (fun u => if u.id = user_id then f u else u) }

/-- Does user `u` hold a role named "admin"?  This is the predicate of
`User.roles.any(name="admin")` in `remove_role`. -/
def holdsAdminRole (db : DB) (u : User) : Bool :=
  u.roles.any (fun rid =>
    match findRole db rid with
    | some r => r.name == "admin"
    | none => false)

/-- Embeds `db.query(User).filter(User.roles.any(name="admin")).count()`:
the number of users currently holding a role named "admin". -/
def adminUsersCount (db : DB) : Nat :=
  (db.users.filter (fun u => holdsAdminRole db u)).length

/-- Embeds `role_routes.remove_role` (src/routes/role_routes.py lines 110-146):
look up user and role (404s), reject removing the admin role when at most
one user holds it and the target is `is_admin`, otherwise remove the
membership when present and report success. -/
def remove_role (db : DB) (user_id role_id : Nat) : DB × Except HTTPError String :=
  match findUser db user_id with
  | none => (db, .error ⟨404, "User not found"⟩)
  | some user =>
    match findRole db role_id with
    | none => (db, .error ⟨404, "Role not found"⟩)
    | some role =>
      if role.name == "admin" && decide (adminUsersCount db ≤ 1) && user.is_admin then
        (db, .error ⟨400, "Cannot remove the last admin role"⟩)
      else if user.roles.contains role.id then
        (updateUser db user.id (fun u => { u with roles := u.roles.erase role.id }),
         .ok ("Role " ++ role.name ++ " removed from user successfully"))
      else
        (db, .ok ("Role " ++ role.name ++ " removed from user successfully"))

/-- Embeds `role_routes.assign_role` (src/routes/role_routes.py lines 81-108):
look up user and role (404s), append the role to the memberships of the user
when not already held, and report success either way. -/
def assign_role (db : DB) (user_id role_id : Nat) : DB × Except HTTPError String :=
  match findUser db user_id with
  | none => (db, .error ⟨404, "User not found"⟩)
  | some user =>
    match findRole db role_id with
    | none => (db, .error ⟨404, "Role not found"⟩)
    | some role =>
      if user.roles.contains role.id then
        (db, .ok ("Role " ++ role.name ++ " assigned to user successfully"))
      else
        (updateUser db user.id (fun u => { u with roles := u.roles ++ [role.id] }),
         .ok ("Role " ++ role.name ++ " assigned to user successfully"))

/-- Embeds `role_routes.delete_role` (src/routes/role_routes.py lines 55-79):
look up the role (404), refuse to delete the built-in roles "admin" and
"user" (400), otherwise delete the row.  Per spec §3 the held memberships
are implicitly un-assigned. -/
def delete_role (db : DB) (role_id : Nat) : DB × Except HTTPError String :=
  match findRole db role_id with
  | none => (db, .error ⟨404, "Role not found"⟩)
  | some role =>
    if role.name == "admin" || role.name == "user" then
      (db, .error ⟨400, "Cannot delete built-in roles"⟩)
    else
      ({ db with
          roles := db.roles.filter (fun r => r.id != role.id)
          users := db.users.map (fun u => { u with roles := u.roles.filter (fun rid => rid != role.id) }) },
       .ok "Role deleted successfully")

/-- Embeds `role_routes.create_role` (src/routes/role_routes.py lines 29-53):
refuse a duplicate name (400), otherwise insert a fresh row with the next
primary key. -/
def create_role (db : DB) (name : String) : DB × Except HTTPError Role :=
  if db.roles.any (fun r => r.name == name) then
    (db, .error ⟨400, "Role already exists"⟩)
  else
    let role : Role := ⟨db.next_role_id, name⟩
    ({ db with roles := db.roles ++ [role], next_role_id := db.next_role_id + 1 },
     .ok role)

/-- Embeds `role_routes.list_roles` (src/routes/role_routes.py lines 15-27):
`db.query(Role).all()` rendered as (id, name) pairs, in table order. -/
def list_roles (db : DB) : List (Nat × String) :=
  db.roles.map (fun r => (r.id, r.name))

/-! ## Authorization gate (src/authorization/auth.py) -/

/-- The result of one `oso.authorize(user, action, resource)` call: Oso
returns `None` on allow and raises (`ForbiddenError`, `NotFoundError`, or
any internal engine error) on deny or failure; the raised exception is
embedded as `Except.error` carrying its message. -/
abbrev OsoResult := Except String Unit

/-- An Oso policy engine as observed through `authorize`: a deterministic
function of the actor, action, and (possibly absent) resource type. -/
abbrev OsoAuthorize := User → String → Option String → OsoResult

/-- Python truthiness of the `resource_type: Optional[str]` argument, as
tested by `if resource_type:` in `check_permission`: `None` and the empty
string are falsy. -/
def strTruthy : Option String → Bool
  | none => false
  | some s => s ≠ ""

/-- The single `oso.authorize` call `check_permission` makes for a
non-admin user: with the resource type when it is truthy, with `None`
otherwise (src/authorization/auth.py lines 47-50). -/
def osoCall (authorize : OsoAuthorize) (user : User) (action : String)
    (resource_type : Option String) : OsoResult :=
  if strTruthy resource_type then authorize user action resource_type
  else authorize user action none

/-- The inner `check_permission` of `require_permission(action, resource_type)`
(src/authorization/auth.py lines 41-54): admins are allowed before any
policy evaluation; otherwise Oso is consulted, any exception is caught
and turned into a deny (`False`). -/
def check_permission (authorize : OsoAuthorize) (action : String)
    (resource_type : Option String) (user : User) : Bool :=
  if user.is_admin then true
  else
    match osoCall authorize user action resource_type with
    | .ok _ => true
    | .error _ => false

/-- The FastAPI dependency form of the gate (src/authorization/auth.py
lines 56-62): pass the authenticated user through on allow, raise
`HTTPException(403, "Not authorized to perform <action>")` on deny. -/
def gate_dependency (authorize : OsoAuthorize) (action : String)
    (resource_type : Option String) (current_user : User) : Except HTTPError User :=
  if check_permission authorize action resource_type current_user then
    .ok current_user
  else
    .error ⟨403, "Not authorized to perform " ++ action⟩

/-- The decorator form of the gate (src/authorization/auth.py lines
64-73): on allow call the wrapped handler on the authenticated user,
on deny raise the same `HTTPException` as the dependency form. -/
def gate_decorator {α : Type} (authorize : OsoAuthorize) (action : String)
    (resource_type : Option String) (func : User → α) (current_user : User) :
    Except HTTPError α :=
  if check_permission authorize action resource_type current_user then
    .ok (func current_user)
  else
    .error ⟨403, "Not authorized to perform " ++ action⟩

/-- A declarative allow-rule: actors holding role `role_name` may perform
`action` on `resource_type`. -/
structure PolicyRule where
  role_name : String
  action : String
  resource_type : Option String
deriving Repr, DecidableEq

/-- Modelled from the spec: the Oso policy file
`authorization/policy.polar` is not in the source tree; per spec §4.3 the
rules are a mapping from (role-name, resource-type, action) to allow,
evaluated against the role set of the actor with default deny (Oso raises on
the absence of a matching allow-rule). -/
def polarAuthorize (db : DB) (rules : List PolicyRule) : OsoAuthorize :=
  fun user action resource_type =>
    if rules.any (fun rule =>
        rule.action == action && rule.resource_type == resource_type &&
        user.roles.any (fun rid =>
          match findRole db rid with
          | some r => r.name == rule.role_name
          | none => false)) then
      .ok ()
    else
      .error "ForbiddenError"

/-! ## User registration (src/routes/user_routes.py) -/

/-- Modelled from the spec: the password hash from
`utils/auth_utils.get_password_hash` (not in the source tree) is an opaque
one-way credential hash; embedded as an uninterpreted tagging. -/
def get_password_hash (password : String) : String :=
  "bcrypt$" ++ password

/-- The `UserCreate` request payload (src/utils/request_payload.py). -/
structure UserCreate where
  email : String
  password : String
  full_name : Option String
deriving Repr, DecidableEq

/-- The row inserted for a fresh registration: the columns passed by
`register_user` plus the model defaults — modelled from the spec
(§4.1: new users start `is_admin=false`, `is_active=true`, no roles),
since `user_model.py` with the column defaults is not in the source
tree. -/
def newUserOf (db : DB) (payload : UserCreate) : User :=
  { id := db.next_user_id
    email := payload.email
    hashed_password := get_password_hash payload.password
    full_name := payload.full_name
    is_admin := false
    is_active := true
    roles := [] }

/-- Embeds `user_routes.register_user` (src/routes/user_routes.py lines 20-36):
reject a duplicate email (400) and otherwise insert a fresh user row. -/
def register_user (db : DB) (payload : UserCreate) : DB × Except HTTPError User :=
  match db.users.find? (fun u => u.email == payload.email) with
  | some _ => (db, .error ⟨400, "Email already registered"⟩)
  | none =>
    ({ db with
        users := db.users ++ [newUserOf db payload]
        next_user_id := db.next_user_id + 1 },
     .ok (newUserOf db payload))

/-! ## Sequences of role-store operations -/

/-- One call to a role-mutating route handler. -/
inductive RoleOp where
  | create (name : String)
  | delete (role_id : Nat)
  | assign (user_id role_id : Nat)
  | remove (user_id role_id : Nat)

/-- The store state committed by one route call (responses discarded). -/
def applyRoleOp (db : DB) : RoleOp → DB
  | .create n => (create_role db n).1
  | .delete rid => (delete_role db rid).1
  | .assign uid rid => (assign_role db uid rid).1
  | .remove uid rid => (remove_role db uid rid).1

/-- Well-formedness of the roles table: primary keys appear in strictly
increasing (creation) order and stay below the autoincrement counter.
Initially true (empty table) and preserved by every route call. -/
def RolesInv (db : DB) : Prop :=
  (db.roles.map Role.id).Pairwise (· < ·) ∧ ∀ r ∈ db.roles, r.id < db.next_role_id

/-! ## Sample values used by concrete instantiations -/

/-- A sample admin-flagged user. -/
def sampleAdmin : User :=
  { id := 1, email := "root@example.com", hashed_password := "h1", full_name := none
    is_admin := true, is_active := true, roles := [] }

/-- A sample active non-admin user with no roles. -/
def sampleMember : User :=
  { id := 2, email := "member@example.com", hashed_password := "h2", full_name := none
    is_admin := false, is_active := true, roles := [] }

/-- An Oso stub that rejects every request (deny / engine failure). -/
def denyAll : OsoAuthorize := fun _ _ _ => .error "PolicyEvaluationError"

/-- An admin-flagged user holding the admin role (id 1). -/
def wAlice : User :=
  { id := 1, email := "alice@example.com", hashed_password := "h1", full_name := none
    is_admin := true, is_active := true, roles := [1] }

/-- A non-admin user who nevertheless holds the admin role (id 1). -/
def wBob : User :=
  { id := 2, email := "bob@example.com", hashed_password := "h2", full_name := none
    is_admin := false, is_active := true, roles := [1] }

/-- An admin-flagged user holding no roles at all. -/
def wCharlie : User :=
  { id := 1, email := "charlie@example.com", hashed_password := "h3", full_name := none
    is_admin := true, is_active := true, roles := [] }

/-- A store where `wAlice` is the only `is_admin` user but two users hold
the role named "admin". -/
def lastAdminDB : DB :=
  { users := [wAlice, wBob], roles := [⟨1, "admin"⟩]
    next_user_id := 3, next_role_id := 2 }

/-- A store where `wAlice` is the sole user and sole admin-role holder. -/
def soleAdminDB : DB :=
  { users := [wAlice], roles := [⟨1, "admin"⟩]
    next_user_id := 2, next_role_id := 2 }

/-- A store where the admin-flagged `wCharlie` holds neither the admin
role (id 1) nor the "viewer" role (id 2). -/
def orderDB : DB :=
  { users := [wCharlie], roles := [⟨1, "admin"⟩, ⟨2, "viewer"⟩]
    next_user_id := 2, next_role_id := 3 }

/-- A store with a role-less member and an assignable "editor" role. -/
def assignDB : DB :=
  { users := [sampleMember], roles := [⟨2, "editor"⟩]
    next_user_id := 3, next_role_id := 3 }

/-- A store holding one registered user (`sampleMember`). -/
def regDB : DB :=
  { users := [sampleMember], roles := []
    next_user_id := 3, next_role_id := 1 }

/-- The empty store. -/
def emptyDB : DB := { users := [], roles := [], next_user_id := 1, next_role_id := 1 }

/-! ## Helper lemmas -/

theorem findUser_id_eq (db : DB) (uid : Nat) (u : User)
    (h : findUser db uid = some u) : u.id = uid := by
  have hp := List.find?_some h
  simpa using hp

theorem findRole_id_eq (db : DB) (rid : Nat) (r : Role)
    (h : findRole db rid = some r) : r.id = rid := by
  have hp := List.find?_some h
  simpa using hp

theorem find?_map_update (l : List User) (uid : Nat) (f : User → User)
    (hf : ∀ u, (f u).id = u.id) :
    (l.map (fun u => if u.id = uid then f u else u)).find? (fun u => u.id == uid) =
      (l.find? (fun u => u.id == uid)).map f := by
  induction l with
  | nil => rfl
  | cons a t ih =>
    by_cases h : a.id = uid
    · have hb : (a.id == uid) = true := by simpa using h
      have hfa : ((f a).id == uid) = true := by rw [hf a]; exact hb
      simp only [List.map_cons, if_pos h, List.find?_cons, hb, hfa]
      rfl
    · have hb : (a.id == uid) = false := by simpa using h
      simp only [List.map_cons, if_neg h, List.find?_cons, hb]
      simpa using ih

theorem findUser_updateUser (db : DB) (uid : Nat) (f : User → User)
    (hf : ∀ u, (f u).id = u.id) :
    findUser (updateUser db uid f) uid = (findUser db uid).map f := by
  simpa [findUser, updateUser] using find?_map_update db.users uid f hf

theorem updateUser_roles (db : DB) (uid : Nat) (f : User → User) :
    (updateUser db uid f).roles = db.roles := rfl

theorem findRole_updateUser (db : DB) (uid : Nat) (f : User → User) (rid : Nat) :
    findRole (updateUser db uid f) rid = findRole db rid := rfl

/-! ## Claim theorems -/

/-- C2: for every user whose `is_admin` flag is true, `check_permission`
returns allow for every action, every resource type (including an absent
one), every role set, and every policy engine — quantifying over the
`authorize` function shows that no policy rule is ever evaluated. -/
theorem admin_bypass_always_allows (authorize : OsoAuthorize) (action : String)
    (resource_type : Option String) (u : User) (hadmin : u.is_admin = true) :
    check_permission authorize action resource_type u = true := by
  simp [check_permission, hadmin]

/-- Witness for C2: the deny-everything engine still allows the
admin-flagged user (with empty role set) on an arbitrary action, both with
a resource type and without one. -/
theorem admin_bypass_always_allows_witness :
    sampleAdmin.is_admin = true ∧
      check_permission denyAll "read" (some "Role") sampleAdmin = true ∧
      check_permission denyAll "ask" none sampleAdmin = true :=
  ⟨rfl, admin_bypass_always_allows denyAll "read" (some "Role") sampleAdmin rfl,
    admin_bypass_always_allows denyAll "ask" none sampleAdmin rfl⟩

/-- C3: for a non-admin user, whenever the Oso call performed by
`check_permission` raises (returns an exception value), the check returns
deny and the gate rejects with the 403 error — the exception never
produces an allow and never escapes past the gate. -/
theorem exception_fails_closed (authorize : OsoAuthorize) (action : String)
    (resource_type : Option String) (u : User) (e : String)
    (hadmin : u.is_admin = false)
    (herr : osoCall authorize u action resource_type = .error e) :
    check_permission authorize action resource_type u = false ∧
      gate_dependency authorize action resource_type u =
        .error ⟨403, "Not authorized to perform " ++ action⟩ := by
  have hc : check_permission authorize action resource_type u = false := by
    simp [check_permission, hadmin, herr]
  exact ⟨hc, by simp [gate_dependency, hc]⟩

/-- Witness for C3: the engine that always raises
`PolicyEvaluationError` makes the gate deny the non-admin user. -/
theorem exception_fails_closed_witness :
    sampleMember.is_admin = false ∧
      osoCall denyAll sampleMember "read" (some "Document") =
        .error "PolicyEvaluationError" ∧
      check_permission denyAll "read" (some "Document") sampleMember = false ∧
      gate_dependency denyAll "read" (some "Document") sampleMember =
        .error ⟨403, "Not authorized to perform read"⟩ :=
  ⟨rfl, rfl,
    (exception_fails_closed denyAll "read" (some "Document") sampleMember
      "PolicyEvaluationError" rfl rfl).1,
    (exception_fails_closed denyAll "read" (some "Document") sampleMember
      "PolicyEvaluationError" rfl rfl).2⟩

/-- C7: for every authenticated active user whose permission check is
denied, both forms of the gate — the dependency and the wrapping
decorator — reject with status 403 and the identical message
`"Not authorized to perform <action>"`. -/
theorem denied_rejection_uniform {α : Type} (authorize : OsoAuthorize)
    (action : String) (resource_type : Option String) (u : User)
    (func : User → α) (_hactive : u.is_active = true)
    (hdeny : check_permission authorize action resource_type u = false) :
    gate_dependency authorize action resource_type u =
        .error ⟨403, "Not authorized to perform " ++ action⟩ ∧
      gate_decorator authorize action resource_type func u =
        .error ⟨403, "Not authorized to perform " ++ action⟩ := by
  exact ⟨by simp [gate_dependency, hdeny], by simp [gate_decorator, hdeny]⟩

/-- Witness for C7: the denied active member receives the same 403 error
with the exact message from the dependency and from a decorator wrapping a
concrete handler. -/
theorem denied_rejection_uniform_witness :
    sampleMember.is_active = true ∧
      check_permission denyAll "manage_roles" (some "Role") sampleMember = false ∧
      gate_dependency denyAll "manage_roles" (some "Role") sampleMember =
        .error ⟨403, "Not authorized to perform manage_roles"⟩ ∧
      gate_decorator denyAll "manage_roles" (some "Role") User.email sampleMember =
        .error ⟨403, "Not authorized to perform manage_roles"⟩ :=
  ⟨rfl, rfl,
    (denied_rejection_uniform denyAll "manage_roles" (some "Role") sampleMember
      User.email rfl rfl).1,
    (denied_rejection_uniform denyAll "manage_roles" (some "Role") sampleMember
      User.email rfl rfl).2⟩

/-- C8: the policy decision is deterministic and a function of the actor
only through the `is_admin` flag and the role set: with the declarative
rule evaluation, two users agreeing on those fields receive the same
allow/deny decision for every fixed action and resource type, hence the
same actor receives the same decision on every call. -/
theorem decision_deterministic (db : DB) (rules : List PolicyRule)
    (action : String) (resource_type : Option String) (u1 u2 : User)
    (hadmin : u1.is_admin = u2.is_admin) (hroles : u1.roles = u2.roles) :
    check_permission (polarAuthorize db rules) action resource_type u1 =
      check_permission (polarAuthorize db rules) action resource_type u2 := by
  simp [check_permission, osoCall, polarAuthorize, hadmin, hroles]

/-- Witness for C8: two distinct users with the same flag and role set get
the same decision on a concrete rule set. -/
theorem decision_deterministic_witness :
    sampleMember.is_admin =
        ({ sampleMember with id := 9, email := "other@example.com" } : User).is_admin ∧
      sampleMember.roles =
        ({ sampleMember with id := 9, email := "other@example.com" } : User).roles ∧
      check_permission
          (polarAuthorize ⟨[], [⟨1, "editor"⟩], 1, 2⟩ [⟨"editor", "write", some "Document"⟩])
          "write" (some "Document") sampleMember =
        check_permission
          (polarAuthorize ⟨[], [⟨1, "editor"⟩], 1, 2⟩ [⟨"editor", "write", some "Document"⟩])
          "write" (some "Document")
          { sampleMember with id := 9, email := "other@example.com" } :=
  ⟨rfl, rfl,
    decision_deterministic ⟨[], [⟨1, "editor"⟩], 1, 2⟩ [⟨"editor", "write", some "Document"⟩]
      "write" (some "Document") sampleMember
      { sampleMember with id := 9, email := "other@example.com" } rfl rfl⟩

/-- C4: deleting an existing role named "admin" or "user" always fails
with the built-in-role protection error and leaves the store unchanged,
for every store state (hence every assignment state, including roles
nobody holds); and even a caller passing the `manage_roles` gate because
of the admin bypass receives that same 400 error, so no caller can delete
a built-in role. -/
theorem delete_builtin_role_protected (authorize : OsoAuthorize) (db : DB)
    (rid : Nat) (role : Role) (caller : User)
    (hr : findRole db rid = some role)
    (hname : role.name = "admin" ∨ role.name = "user")
    (hcaller : caller.is_admin = true) :
    delete_role db rid = (db, .error ⟨400, "Cannot delete built-in roles"⟩) ∧
      gate_decorator authorize "manage_roles" (some "Role")
          (fun _ => delete_role db rid) caller =
        .ok (db, .error ⟨400, "Cannot delete built-in roles"⟩) := by
  have h1 : delete_role db rid = (db, .error ⟨400, "Cannot delete built-in roles"⟩) := by
    rcases hname with h | h <;> simp [delete_role, hr, h]
  exact ⟨h1, by simp [gate_decorator, check_permission, hcaller, h1]⟩

/-- Witness for C4: in a store where nobody holds role 1 ("admin") or
role 2 ("viewer"), an admin caller deleting the "admin" role through the
gate receives the 400 protection error and the store is unchanged. -/
theorem delete_builtin_role_protected_witness :
    delete_role orderDB 1 = (orderDB, .error ⟨400, "Cannot delete built-in roles"⟩) ∧
      gate_decorator denyAll "manage_roles" (some "Role")
          (fun _ => delete_role orderDB 1) wCharlie =
        .ok (orderDB, .error ⟨400, "Cannot delete built-in roles"⟩) :=
  delete_builtin_role_protected denyAll orderDB 1 ⟨1, "admin"⟩ wCharlie rfl
    (Or.inl rfl) rfl

/-- Counterexample to C1 as stated: in `lastAdminDB`, `wAlice` is the
unique `is_admin` user (the "last is_admin user"), yet removing the admin
role from her succeeds — because the guard counts holders of the role
named "admin" (here two: `wAlice` and the non-admin `wBob`), not
`is_admin` users — and her role assignments do change. -/
theorem remove_role_last_admin_cex :
    (lastAdminDB.users.filter (fun u => u.is_admin)).length = 1 ∧
      (findUser lastAdminDB 1).map User.is_admin = some true ∧
      (findRole lastAdminDB 1).map Role.name = some "admin" ∧
      (remove_role lastAdminDB 1 1).2 =
        .ok "Role admin removed from user successfully" ∧
      (findUser (remove_role lastAdminDB 1 1).1 1).map User.roles = some [] := by
  refine ⟨rfl, rfl, rfl, rfl, rfl⟩

/-- C1 amended: with user and role found and the role named "admin", the
call is rejected with the last-admin error exactly when the target has
`is_admin = true` and at most one user currently holds a role named
"admin" (not: at most one `is_admin` user); in that case the store,
hence every role assignment, is unchanged. -/
theorem remove_role_last_admin_amended (db : DB) (uid rid : Nat)
    (user : User) (role : Role)
    (hu : findUser db uid = some user) (hr : findRole db rid = some role)
    (hname : role.name = "admin") :
    ((remove_role db uid rid).2 =
        .error ⟨400, "Cannot remove the last admin role"⟩ ↔
      (user.is_admin = true ∧ adminUsersCount db ≤ 1)) ∧
      (user.is_admin = true → adminUsersCount db ≤ 1 →
        remove_role db uid rid =
          (db, .error ⟨400, "Cannot remove the last admin role"⟩)) := by
  cases hadm : user.is_admin with
  | true =>
    by_cases hcnt : adminUsersCount db ≤ 1
    · have hrej : remove_role db uid rid =
          (db, .error ⟨400, "Cannot remove the last admin role"⟩) := by
        simp [remove_role, hu, hr, hname, hadm, hcnt]
      refine ⟨?_, fun _ _ => hrej⟩
      rw [hrej]
      simp [hcnt]
    · have hok : (remove_role db uid rid).2 =
          .ok ("Role " ++ role.name ++ " removed from user successfully") := by
        simp [remove_role, hu, hr, hname, hcnt]
        split <;> rfl
      refine ⟨?_, fun _ hc => absurd hc hcnt⟩
      rw [hok]
      simp [hcnt]
  | false =>
    have hok : (remove_role db uid rid).2 =
        .ok ("Role " ++ role.name ++ " removed from user successfully") := by
      simp [remove_role, hu, hr, hadm]
      split <;> rfl
    constructor
    · rw [hok]
      simp
    · intro hadm2 _
      exact absurd hadm2 (by decide)

/-- Witness for C1 (amended): in `soleAdminDB` exactly one user holds the
admin role and she is `is_admin`, so the removal is rejected with the 400
last-admin error and the store is unchanged. -/
theorem remove_role_last_admin_amended_witness :
    remove_role soleAdminDB 1 1 =
      (soleAdminDB, .error ⟨400, "Cannot remove the last admin role"⟩) :=
  (remove_role_last_admin_amended soleAdminDB 1 1 wAlice ⟨1, "admin"⟩
    rfl rfl rfl).2 rfl (by decide)

/-- C10: the last-admin guard runs before the membership test — with user
and role found, (1) if the role is named "admin", the target is
`is_admin`, and at most one user holds the admin role, the call is
rejected with the last-admin error even when the target does not hold the
role; and (2) when no rejection applies and the target does not hold the
role, the call returns success and leaves the store unchanged. -/
theorem remove_role_guard_before_membership (db : DB) (uid rid : Nat)
    (user : User) (role : Role)
    (hu : findUser db uid = some user) (hr : findRole db rid = some role) :
    (role.name = "admin" → user.is_admin = true → adminUsersCount db ≤ 1 →
      remove_role db uid rid =
        (db, .error ⟨400, "Cannot remove the last admin role"⟩)) ∧
      (¬(role.name = "admin" ∧ adminUsersCount db ≤ 1 ∧ user.is_admin = true) →
        user.roles.contains role.id = false →
        remove_role db uid rid =
          (db, .ok ("Role " ++ role.name ++ " removed from user successfully"))) := by
  constructor
  · intro hname hadm hcnt
    simp [remove_role, hu, hr, hname, hadm, hcnt]
  · intro hnot hmem
    have hc : (role.name == "admin" && decide (adminUsersCount db ≤ 1)
        && user.is_admin) = false := by
      by_contra hcc
      rw [Bool.not_eq_false, Bool.and_eq_true, Bool.and_eq_true] at hcc
      obtain ⟨⟨h1, h2⟩, h3⟩ := hcc
      exact hnot ⟨by simpa using h1, by simpa using h2, h3⟩
    have hmem' : role.id ∉ user.roles := by simpa using hmem
    simp [remove_role, hu, hr, hc, hmem']

/-- Witness for C10: in `orderDB` the admin-flagged `wCharlie` holds no
roles and nobody holds the admin role, so removing the admin role from
him is rejected with the last-admin error; removing the non-admin
"viewer" role he does not hold returns success and changes nothing. -/
theorem remove_role_guard_before_membership_witness :
    remove_role orderDB 1 1 =
        (orderDB, .error ⟨400, "Cannot remove the last admin role"⟩) ∧
      remove_role orderDB 1 2 =
        (orderDB, .ok ("Role " ++ "viewer" ++ " removed from user successfully")) :=
  ⟨(remove_role_guard_before_membership orderDB 1 1 wCharlie ⟨1, "admin"⟩
      rfl rfl).1 rfl rfl (by decide),
    (remove_role_guard_before_membership orderDB 1 2 wCharlie ⟨2, "viewer"⟩
      rfl rfl).2 (by decide) rfl⟩

/-- C5: for an existing user and role (with the duplicate-free membership
list the join table guarantees), `assign_role` succeeds, the user holds
exactly one membership of the role after the call, and the second call is
a no-op success on the same state; in particular assigning an
already-held role returns success without changing the store. -/
theorem assign_role_idempotent (db : DB) (uid rid : Nat)
    (user : User) (role : Role)
    (hu : findUser db uid = some user) (hr : findRole db rid = some role)
    (hnd : user.roles.Nodup) :
    (assign_role db uid rid).2 =
        .ok ("Role " ++ role.name ++ " assigned to user successfully") ∧
      (∃ user1, findUser (assign_role db uid rid).1 uid = some user1 ∧
        user1.roles.count role.id = 1 ∧
        assign_role (assign_role db uid rid).1 uid rid =
          ((assign_role db uid rid).1,
           .ok ("Role " ++ role.name ++ " assigned to user successfully"))) ∧
      (user.roles.contains role.id = true →
        assign_role db uid rid =
          (db, .ok ("Role " ++ role.name ++ " assigned to user successfully"))) := by
  have huid : user.id = uid := findUser_id_eq db uid user hu
  by_cases hmem : role.id ∈ user.roles
  · have h1 : assign_role db uid rid =
        (db, .ok ("Role " ++ role.name ++ " assigned to user successfully")) := by
      simp [assign_role, hu, hr, hmem]
    refine ⟨by rw [h1], ⟨user, ?_, ?_, ?_⟩, fun _ => h1⟩
    · rw [h1]; exact hu
    · exact List.count_eq_one_of_mem hnd hmem
    · rw [h1]; exact h1
  · have h1 : assign_role db uid rid =
        (updateUser db user.id (fun u => { u with roles := u.roles ++ [role.id] }),
         .ok ("Role " ++ role.name ++ " assigned to user successfully")) := by
      simp [assign_role, hu, hr, hmem]
    have hfind1 : findUser (updateUser db user.id
        (fun u => { u with roles := u.roles ++ [role.id] })) uid =
        some { user with roles := user.roles ++ [role.id] } := by
      rw [huid, findUser_updateUser db uid
        (fun u => { u with roles := u.roles ++ [role.id] }) (fun u => rfl), hu]
      simp [huid]
    refine ⟨by rw [h1], ⟨{ user with roles := user.roles ++ [role.id] }, ?_, ?_, ?_⟩,
      fun hc => absurd (by simpa using hc) hmem⟩
    · rw [h1]; exact hfind1
    · have h0 : user.roles.count role.id = 0 := List.count_eq_zero_of_not_mem hmem
      simp [h0]
    · rw [h1]
      have hr1 : findRole (updateUser db user.id
          (fun u => { u with roles := u.roles ++ [role.id] })) rid = some role := hr
      have hmem1 : role.id ∈ ({ user with roles := user.roles ++ [role.id] } : User).roles := by
        simp
      simp [assign_role, hfind1, hr1, hmem1]

/-- Witness for C5: assigning the "editor" role (id 2) to the role-less
user `sampleMember` (id 2) twice leaves exactly one membership and the
second call changes nothing. -/
theorem assign_role_idempotent_witness :
    (assign_role assignDB 2 2).2 = .ok "Role editor assigned to user successfully" ∧
      (findUser (assign_role assignDB 2 2).1 2).map (fun u => u.roles.count 2) =
        some 1 ∧
      assign_role (assign_role assignDB 2 2).1 2 2 =
        ((assign_role assignDB 2 2).1,
         .ok "Role editor assigned to user successfully") := by
  have h := assign_role_idempotent assignDB 2 2 sampleMember ⟨2, "editor"⟩
    rfl rfl (by decide)
  obtain ⟨h1, ⟨u1, hfind, hcnt, hsecond⟩, _⟩ := h
  exact ⟨h1, by rw [hfind]; simpa using hcnt, hsecond⟩

/-- C6: registration fails with the duplicate-email error and an
unchanged store whenever some user already has the requested email;
otherwise it appends exactly one new user whose `is_admin` is false,
`is_active` is true, and role set is empty. -/
theorem register_user_spec (db : DB) (payload : UserCreate) :
    ((∃ u, u ∈ db.users ∧ u.email = payload.email) →
      register_user db payload = (db, .error ⟨400, "Email already registered"⟩)) ∧
      ((∀ u ∈ db.users, u.email ≠ payload.email) →
        register_user db payload =
          ({ db with
              users := db.users ++ [newUserOf db payload]
              next_user_id := db.next_user_id + 1 },
           .ok (newUserOf db payload)) ∧
        (newUserOf db payload).is_admin = false ∧
        (newUserOf db payload).is_active = true ∧
        (newUserOf db payload).roles = []) := by
  constructor
  · rintro ⟨u, hu, he⟩
    have hsome : (db.users.find? (fun v => v.email == payload.email)).isSome := by
      rw [List.find?_isSome]
      exact ⟨u, hu, by simpa using he⟩
    obtain ⟨v, hv⟩ := Option.isSome_iff_exists.mp hsome
    simp [register_user, hv]
  · intro h
    have hnone : db.users.find? (fun v => v.email == payload.email) = none := by
      rw [List.find?_eq_none]
      intro u hu
      simpa using h u hu
    exact ⟨by simp [register_user, hnone], rfl, rfl, rfl⟩

/-- Witness for C6: re-registering the email of `sampleMember` fails with
the 400 duplicate error and leaves `regDB` unchanged; registering a fresh
email appends one user with the default flags and empty role set. -/
theorem register_user_spec_witness :
    register_user regDB ⟨"member@example.com", "pw", none⟩ =
        (regDB, .error ⟨400, "Email already registered"⟩) ∧
      (register_user regDB ⟨"eve@example.com", "pw", none⟩ =
        ({ regDB with
            users := regDB.users ++ [newUserOf regDB ⟨"eve@example.com", "pw", none⟩]
            next_user_id := regDB.next_user_id + 1 },
         .ok (newUserOf regDB ⟨"eve@example.com", "pw", none⟩)) ∧
        (newUserOf regDB ⟨"eve@example.com", "pw", none⟩).is_admin = false ∧
        (newUserOf regDB ⟨"eve@example.com", "pw", none⟩).is_active = true ∧
        (newUserOf regDB ⟨"eve@example.com", "pw", none⟩).roles = []) :=
  ⟨(register_user_spec regDB ⟨"member@example.com", "pw", none⟩).1
      ⟨sampleMember, by decide, rfl⟩,
    (register_user_spec regDB ⟨"eve@example.com", "pw", none⟩).2 (by decide)⟩

theorem rolesInv_create (db : DB) (n : String) (h : RolesInv db) :
    RolesInv (create_role db n).1 := by
  by_cases hd : db.roles.any (fun r => r.name == n) = true
  · simpa [create_role, hd] using h
  · simp only [create_role, hd, Bool.false_eq_true, if_false]
    constructor
    · rw [List.map_append, List.pairwise_append]
      refine ⟨h.1, by simp, ?_⟩
      intro a ha b hb
      simp only [List.map_cons, List.map_nil, List.mem_singleton] at hb
      subst hb
      obtain ⟨r, hrm, rfl⟩ := List.mem_map.mp ha
      exact h.2 r hrm
    · intro r hrm
      rcases List.mem_append.mp hrm with h1 | h2
      · exact Nat.lt_succ_of_lt (h.2 r h1)
      · rw [List.mem_singleton] at h2
        subst h2
        exact Nat.lt_succ_self _

theorem rolesInv_delete (db : DB) (rid : Nat) (h : RolesInv db) :
    RolesInv (delete_role db rid).1 := by
  cases hfind : findRole db rid with
  | none => simpa [delete_role, hfind] using h
  | some role =>
    by_cases hb : (role.name == "admin" || role.name == "user") = true
    · simpa [delete_role, hfind, hb] using h
    · simp only [delete_role, hfind, hb, Bool.false_eq_true, if_false]
      constructor
      · exact List.Pairwise.sublist ((List.filter_sublist _).map Role.id) h.1
      · intro r hrm
        exact h.2 r (List.mem_of_mem_filter hrm)

theorem assign_role_state_roles (db : DB) (uid rid : Nat) :
    (assign_role db uid rid).1.roles = db.roles ∧
      (assign_role db uid rid).1.next_role_id = db.next_role_id := by
  cases hu : findUser db uid with
  | none => simp [assign_role, hu]
  | some user =>
    cases hr : findRole db rid with
    | none => simp [assign_role, hu, hr]
    | some role =>
      by_cases hmem : role.id ∈ user.roles
      · simp [assign_role, hu, hr, hmem]
      · simp [assign_role, hu, hr, hmem, updateUser]

theorem remove_role_state_roles (db : DB) (uid rid : Nat) :
    (remove_role db uid rid).1.roles = db.roles ∧
      (remove_role db uid rid).1.next_role_id = db.next_role_id := by
  cases hu : findUser db uid with
  | none => simp [remove_role, hu]
  | some user =>
    cases hr : findRole db rid with
    | none => simp [remove_role, hu, hr]
    | some role =>
      by_cases hguard : (role.name == "admin" && decide (adminUsersCount db ≤ 1)
          && user.is_admin) = true
      · simp [remove_role, hu, hr, hguard]
      · by_cases hmem : role.id ∈ user.roles
        · simp [remove_role, hu, hr, hguard, hmem, updateUser]
        · simp [remove_role, hu, hr, hguard, hmem]

theorem rolesInv_applyRoleOp (db : DB) (op : RoleOp) (h : RolesInv db) :
    RolesInv (applyRoleOp db op) := by
  cases op with
  | create n => exact rolesInv_create db n h
  | delete rid => exact rolesInv_delete db rid h
  | assign uid rid =>
    obtain ⟨h1, h2⟩ := assign_role_state_roles db uid rid
    exact ⟨by rw [applyRoleOp, h1]; exact h.1,
      fun r hrm => by rw [applyRoleOp, h2]; exact h.2 r (by rwa [applyRoleOp, h1] at hrm)⟩
  | remove uid rid =>
    obtain ⟨h1, h2⟩ := remove_role_state_roles db uid rid
    exact ⟨by rw [applyRoleOp, h1]; exact h.1,
      fun r hrm => by rw [applyRoleOp, h2]; exact h.2 r (by rwa [applyRoleOp, h1] at hrm)⟩

theorem rolesInv_foldl (db : DB) (ops : List RoleOp) (h : RolesInv db) :
    RolesInv (ops.foldl applyRoleOp db) := by
  induction ops generalizing db with
  | nil => exact h
  | cons op t ih => exact ih (applyRoleOp db op) (rolesInv_applyRoleOp db op h)

/-- C9: role ids are allocated in strictly increasing creation order, and
starting from any well-formed store, after any sequence of role-route
calls `list_roles` returns the surviving roles with strictly increasing
ids — i.e. ordered by insertion: its i-th element is the i-th role
created among those still present. -/
theorem list_roles_insertion_order (db : DB) (ops : List RoleOp)
    (h : RolesInv db) :
    ((list_roles (ops.foldl applyRoleOp db)).map Prod.fst).Pairwise (· < ·) := by
  have hinv := rolesInv_foldl db ops h
  have hmap : (list_roles (ops.foldl applyRoleOp db)).map Prod.fst =
      (ops.foldl applyRoleOp db).roles.map Role.id := by
    simp [list_roles, List.map_map]
  rw [hmap]
  exact hinv.1

/-- Witness for C9: from the empty store, creating "editor" then "viewer"
and deleting "editor" leaves `list_roles` sorted by creation id. -/
theorem list_roles_insertion_order_witness :
    ((list_roles ([RoleOp.create "editor", RoleOp.create "viewer",
        RoleOp.delete 1].foldl applyRoleOp emptyDB)).map Prod.fst).Pairwise (· < ·) :=
  list_roles_insertion_order emptyDB
    [RoleOp.create "editor", RoleOp.create "viewer", RoleOp.delete 1]
    ⟨List.Pairwise.nil, by simp [emptyDB]⟩

end RagDemo
